import Mathlib

/-!
Shallow embedding of `src/client.py` (Triikk/Splitgate), a thin client for
the Tracker.gg Splitgate web API, together with theorems about its
behaviour.  Python dictionaries are association lists, JSON values are an
inductive type, Python exceptions are an explicit error type, and the HTTP
layer is an oracle `respond : Request → Response` standing for the server.
-/

namespace Splitgate

/-- JSON values, the shape of request/response bodies.  Numbers are rationals
(the client does no arithmetic on them, so this loses nothing). -/
inductive Json where
  | null : Json
  | bool : Bool → Json
  | num : Rat → Json
  | str : String → Json
  | arr : List Json → Json
  | obj : List (String × Json) → Json

/-- The Python exceptions the embedded code can raise. -/
inductive PyError where
  | attributeError (attr : String)
  | keyError (key : String)
  | indexError
deriving DecidableEq

/-- The dual-typed return value of the two request methods: parsed JSON body
on success, bare integer status code otherwise (docstring `:rtype: dict / int`). -/
inductive Result where
  | json (body : Json)
  | statusCode (code : Nat)

/-- An HTTP GET request as `requests.get(url, headers=...)` issues it. -/
structure Request where
  url : String
  headers : List (String × String)

/-- An HTTP response as seen through the `requests` response object:
`status_code` and the parsed `.json()` body. -/
structure Response where
  status_code : Nat
  body : Json

/-- A `Client` instance: the attributes `__init__` creates, `API_KEY` and
`headers` (`client.py` lines 22-23). -/
structure Client where
  API_KEY : String
  headers : List (String × String)

/-- `get_headers` (`client.py` lines 29-39): the three-entry header dict
derived from the API key stored on the instance. -/
def Client.get_headers (self : Client) : List (String × String) :=
  [ ("TRN-API-Key", self.API_KEY),
    ("Accept", "application/json"),
    ("Accept-Encoding", "gzip") ]

/-- `Client.__init__` (`client.py` lines 17-23): stores the key, then builds
the header dict from it.  The source performs no validation of `API_KEY`;
both statements are plain attribute assignments that cannot raise, so the
constructor is total.  (The intermediate record models the state between the
two assignments.) -/
def Client.init (API_KEY : String) : Client :=
  let self : Client := { API_KEY := API_KEY, headers := [] }
  { self with headers := self.get_headers }

/-- The Python statement `client.API_KEY = k`: rebinding the attribute after
construction.  It does not touch the `headers` attribute. -/
def Client.set_API_KEY (self : Client) (k : String) : Client :=
  { self with API_KEY := k }

/-- The attributes a `Client` object exposes: the functions defined in the
class body of `Client` (`client.py` lines 25, 29, 41, 58; `__init__` aside)
and the instance attributes created in `__init__`.  The functions
`get_platform_info`, `get_profile_info` and `get_stat` are NOT among them:
they are local statements inside the body of `get_player_stats` (lines
75-133), placed after both branches of its `if` have returned, so the class
never binds them. -/
def clientAttrNames : List String :=
  ["API_KEY", "headers", "get_api_key", "get_headers", "search_player",
   "get_player_stats"]

/-- Python attribute lookup on a `Client` object: a name outside
`clientAttrNames` raises `AttributeError`. -/
def Client.getattr (_self : Client) (name : String) : Except PyError Unit :=
  if name ∈ clientAttrNames then Except.ok () else
    Except.error (PyError.attributeError name)

/-- The module does `import urllib` (`client.py` line 11).  In Python 3 the
`urllib` package defines only the submodules `error`, `parse`, `request`,
`response` and `robotparser`; `urlencode` lives in `urllib.parse`, so the
attribute lookup `urllib.urlencode` raises `AttributeError`. -/
def urllibUrlencode (_query : List (String × String)) : Except PyError String :=
  Except.error (PyError.attributeError "urlencode")

/-- The URL passed to `requests.get` in `search_player` (`client.py` line
52): a plain string literal, not an f-string, so the braces and the word
`query` are literal characters and no query string is ever substituted. -/
def search_url : String :=
  "https://public-api.tracker.gg/v2/splitgate/standard/search?{query}"

/-- `search_player` (`client.py` lines 41-56).  The first statement,
`query = urllib.urlencode(query)`, raises `AttributeError` (see
`urllibUrlencode`), so the call never reaches `requests.get`.  The embedding
returns the list of requests actually issued together with the outcome; the
branch after a successful `urlencode` transcribes lines 52-56, including the
success test `response.status_code in range(200, 299)`, whose upper bound is
exclusive.  The `platform` parameter is never read by the body. -/
def search_player (self : Client) (respond : Request → Response)
    (_platform : String) (query : List (String × String)) :
    List Request × Except PyError Result :=
  match urllibUrlencode query with
  | Except.error e => ([], Except.error e)
  | Except.ok _query =>
    let req : Request := { url := search_url, headers := self.headers }
    let response := respond req
    ( [req],
      Except.ok <|
        if 200 ≤ response.status_code ∧ response.status_code < 299 then
          Result.json response.body
        else
          Result.statusCode response.status_code )

/-- `get_player_stats` (`client.py` lines 58-73).  The URL is an f-string
interpolating `platform` and `user_identifier`; the success test is
`response.status_code in range(200, 300)`.  Both branches of the `if`
return, so the function definitions that follow them (lines 75-133) are
never executed.  The issued request is returned alongside the outcome. -/
def get_player_stats (self : Client) (respond : Request → Response)
    (platform : String) (user_identifier : String) :
    List Request × Result :=
  let req : Request :=
    { url := "https://public-api.tracker.gg/v2/splitgate/standard/profile/"
        ++ platform ++ "/" ++ user_identifier,
      headers := self.headers }
  let response := respond req
  ( [req],
    if 200 ≤ response.status_code ∧ response.status_code < 300 then
      Result.json response.body
    else
      Result.statusCode response.status_code )

/-- Python dict lookup on an association list: the value of the first
matching key. -/
def lookupStr (k : String) : List (String × Json) → Option Json
  | [] => none
  | (k', v) :: rest => if k' = k then some v else lookupStr k rest

/-- `x[k]` on a JSON value: dict lookup, raising `KeyError(k)` when the key
is absent (non-dicts are not subscripted by a string anywhere reachable, so
that case is mapped to `KeyError` as well, carrying the key). -/
def pyGetItem (j : Json) (k : String) : Except PyError Json :=
  match j with
  | Json.obj fields =>
    match lookupStr k fields with
    | some v => Except.ok v
    | none => Except.error (PyError.keyError k)
  | _ => Except.error (PyError.keyError k)

/-- `x[i]` on a JSON value for an integer index: list indexing, raising
`IndexError` when out of range (and on non-lists). -/
def pyIndex (j : Json) (i : Nat) : Except PyError Json :=
  match j with
  | Json.arr xs =>
    match xs.get? i with
    | some v => Except.ok v
    | none => Except.error PyError.indexError
  | _ => Except.error PyError.indexError

/-- The common access path `response["data"]["segments"][0]["stats"]` that
every field expression in `get_stat` starts with (`client.py` lines
124-132). -/
def statsOf (response : Json) : Except PyError Json := do
  let d ← pyGetItem response "data"
  let segments ← pyGetItem d "segments"
  let seg0 ← pyIndex segments 0
  pyGetItem seg0 "stats"

/-- One field expression of `get_stat`:
`response["data"]["segments"][0]["stats"][stat][field]`. -/
def statLookup (response : Json) (stat field : String) : Except PyError Json := do
  let stats ← statsOf response
  let entry ← pyGetItem stats stat
  pyGetItem entry field

/-- `get_stat` (`client.py` lines 114-133): builds a dict of nine fields,
each read by the full access chain; Python evaluates the dict literal values
left to right and the first exception propagates. -/
def get_stat (response : Json) (stat : String) : Except PyError Json := do
  let rank ← statLookup response stat "rank"
  let percentile ← statLookup response stat "percentile"
  let displayName ← statLookup response stat "displayName"
  let displayCategory ← statLookup response stat "displayCategory"
  let category ← statLookup response stat "category"
  let metadata ← statLookup response stat "metadata"
  let value ← statLookup response stat "value"
  let displayValue ← statLookup response stat "displayValue"
  let displayType ← statLookup response stat "displayType"
  pure (Json.obj
    [ ("rank", rank), ("percentile", percentile),
      ("displayName", displayName), ("displayCategory", displayCategory),
      ("category", category), ("metadata", metadata), ("value", value),
      ("displayValue", displayValue), ("displayType", displayType) ])

/-- The nine-field dict `get_stat` returns, as a function of the nine
values, in the order of the source dict literal. -/
def nineFields (rank percentile displayName displayCategory category
    metadata value displayValue displayType : Json) : List (String × Json) :=
  [ ("rank", rank), ("percentile", percentile),
    ("displayName", displayName), ("displayCategory", displayCategory),
    ("category", category), ("metadata", metadata), ("value", value),
    ("displayValue", displayValue), ("displayType", displayType) ]

/-- Python dict equality on association lists: the two dicts associate the
same value (or absence) to every key.  This is insertion-order-insensitive,
as `==` on Python dicts is. -/
def pyDictEq (a b : List (String × Json)) : Prop :=
  ∀ k, lookupStr k a = lookupStr k b

/-! Concrete fixtures used by the theorems below. -/

/-- A stub server answering every request with the given status and body. -/
def constRespond (status : Nat) (body : Json) : Request → Response :=
  fun _ => { status_code := status, body := body }

/-- The example query dict from the `search_player` docstring. -/
def sampleQuery : List (String × String) :=
  [("platform", "steam"), ("platformUserIdentifier", "76561198085274423")]

/-- The stats entry of the spec fixture:
`data.segments[0].stats.matchesPlayed`. -/
def matchesPlayedStat : List (String × Json) :=
  nineFields (Json.num 1) (Json.num (199 / 2)) (Json.str "Matches Played")
    (Json.str "general") (Json.str "general") (Json.obj [])
    (Json.num 120) (Json.str "120") (Json.str "Number")

/-- The spec fixture profile response with a single `matchesPlayed` stat. -/
def sampleResponse : Json :=
  Json.obj [("data", Json.obj [("segments", Json.arr
    [Json.obj [("stats", Json.obj
      [("matchesPlayed", Json.obj matchesPlayedStat)])]])])]

/-- A profile response whose `data.segments[0].stats` dict is empty. -/
def emptyStatsResponse : Json :=
  Json.obj [("data", Json.obj [("segments", Json.arr
    [Json.obj [("stats", Json.obj [])]])])]

/-! Helper lemmas about the `Except` monad, shared by the proofs below. -/

theorem ok_bind {α β ε : Type} (a : α) (f : α → Except ε β) :
    (Except.ok a >>= f) = f a := rfl

theorem error_bind {α β ε : Type} (e : ε) (f : α → Except ε β) :
    ((Except.error e : Except ε α) >>= f) = Except.error e := rfl

/-! Theorems for the claims. -/

/-- C3: for every platform string and every query dict, `search_player`
raises `AttributeError` at `urllib.urlencode` before any HTTP request is
issued (the issued-request list is empty), and therefore never returns a
value of either `Result` variant (the outcome is an error, not `Except.ok`
of a body or of a status code). -/
theorem search_player_always_raises (self : Client) (respond : Request → Response)
    (platform : String) (query : List (String × String)) :
    search_player self respond platform query
      = ([], Except.error (PyError.attributeError "urlencode")) := rfl

/-- C1 (code bug): `get_player_stats` does return the parsed body for a 2xx
response, also at status 299; but `search_player` raises `AttributeError`
at `urllib.urlencode` instead of returning the body, and even its own (dead)
success test `range(200, 299)` excludes status 299, so the claim fails on
the code for `search_player`. -/
theorem search_player_2xx_code_bug :
    (get_player_stats (Client.init "abc123")
        (constRespond 299 (Json.str "payload")) "steam" "76561198085274423").2
      = Result.json (Json.str "payload")
  ∧ (search_player (Client.init "abc123")
        (constRespond 299 (Json.str "payload")) "steam" sampleQuery).2
      = Except.error (PyError.attributeError "urlencode")
  ∧ ¬ (200 ≤ 299 ∧ 299 < 299) :=
  ⟨rfl, rfl, by decide⟩

/-- C2 (code bug): `search_player` raises before issuing any GET, and the
URL it would pass to `requests.get` is the plain (non-interpolated) string
literal containing the characters `{query}` — not the search endpoint with
`urlencode(query)` appended. -/
theorem search_player_url_code_bug :
    (search_player (Client.init "abc123") (constRespond 200 Json.null)
        "steam" sampleQuery).1 = []
  ∧ search_url
      = "https://public-api.tracker.gg/v2/splitgate/standard/search?{query}"
  ∧ search_url
      ≠ "https://public-api.tracker.gg/v2/splitgate/standard/search?platform=steam&platformUserIdentifier=76561198085274423" :=
  ⟨rfl, rfl, by decide⟩

/-- C4 (code bug): `get_player_stats` against a stub server answering 404
does return the integer 404, as claimed; but `search_player` raises
`AttributeError` on every call instead of returning the status code. -/
theorem non2xx_status_code_bug :
    (get_player_stats (Client.init "abc123") (constRespond 404 Json.null)
        "steam" "76561198085274423").2
      = Result.statusCode 404
  ∧ (search_player (Client.init "abc123") (constRespond 404 Json.null)
        "steam" sampleQuery).2
      = Except.error (PyError.attributeError "urlencode") :=
  ⟨rfl, rfl⟩

/-- C5 (counterexample): constructing a `Client` with the empty API key
string succeeds — an instance is produced, with the empty key embedded
verbatim in the cached headers — refuting the claim that construction
fails fast on an empty key. -/
theorem client_init_empty_key_succeeds :
    Client.init ""
      = { API_KEY := "",
          headers := [("TRN-API-Key", ""), ("Accept", "application/json"),
                      ("Accept-Encoding", "gzip")] } := rfl

/-- C5 (amended): the constructor performs no validation at all — for every
key string, including the empty string, it succeeds and produces an instance
whose headers embed that key verbatim. -/
theorem client_init_no_validation (API_KEY : String) :
    Client.init API_KEY
      = { API_KEY := API_KEY,
          headers := [("TRN-API-Key", API_KEY), ("Accept", "application/json"),
                      ("Accept-Encoding", "gzip")] } := rfl

/-- C6: the functions `get_platform_info`, `get_profile_info` and `get_stat`
are local statements of `get_player_stats` placed after both returning
branches of its `if`, so a `Client` object has no such attributes: looking
any of them up on any client instance raises `AttributeError` naming the
missing attribute. -/
theorem client_exposes_no_extraction_helpers (self : Client) :
    self.getattr "get_platform_info"
      = Except.error (PyError.attributeError "get_platform_info")
  ∧ self.getattr "get_profile_info"
      = Except.error (PyError.attributeError "get_profile_info")
  ∧ self.getattr "get_stat"
      = Except.error (PyError.attributeError "get_stat") :=
  ⟨rfl, rfl, rfl⟩

/-- C7: on a profile response whose `data.segments[0].stats` dict does not
contain the requested stat key, `get_stat` fails with `KeyError` carrying
exactly that key — an error identifying the missing field, never a silent
default value. -/
theorem get_stat_missing_key_error (response : Json) (stat : String)
    (statsFields : List (String × Json))
    (hstats : statsOf response = Except.ok (Json.obj statsFields))
    (habsent : lookupStr stat statsFields = none) :
    get_stat response stat = Except.error (PyError.keyError stat) := by
  have h1 : statLookup response stat "rank"
      = Except.error (PyError.keyError stat) := by
    simp [statLookup, hstats, pyGetItem, habsent, ok_bind, error_bind]
  simp [get_stat, h1, ok_bind, error_bind]

/-- C7 witness: the empty-stats fixture with the key `matchesPlayed`. -/
theorem get_stat_missing_key_error_witness :
    get_stat emptyStatsResponse "matchesPlayed"
      = Except.error (PyError.keyError "matchesPlayed") :=
  get_stat_missing_key_error emptyStatsResponse "matchesPlayed" [] rfl rfl

/-- C8: when `data.segments[0].stats[stat]` is a dict equal (as a Python
dict) to one with exactly the nine fields `rank`, `percentile`,
`displayName`, `displayCategory`, `category`, `metadata`, `value`,
`displayValue`, `displayType`, `get_stat` returns that nine-field dict
unchanged (equal as a Python dict to the input entry). -/
theorem get_stat_nine_fields_roundtrip (response : Json) (stat : String)
    (statsFields fields : List (String × Json))
    (rank percentile displayName displayCategory category
      metadata value displayValue displayType : Json)
    (hstats : statsOf response = Except.ok (Json.obj statsFields))
    (hstat : lookupStr stat statsFields = some (Json.obj fields))
    (hfields : pyDictEq fields (nineFields rank percentile displayName
      displayCategory category metadata value displayValue displayType)) :
    get_stat response stat
      = Except.ok (Json.obj (nineFields rank percentile displayName
          displayCategory category metadata value displayValue displayType))
    ∧ pyDictEq (nineFields rank percentile displayName displayCategory
        category metadata value displayValue displayType) fields := by
  have key : ∀ f : String, statLookup response stat f
      = match lookupStr f (nineFields rank percentile displayName
          displayCategory category metadata value displayValue displayType) with
        | some v => Except.ok v
        | none => Except.error (PyError.keyError f) := by
    intro f
    simp [statLookup, hstats, pyGetItem, hstat, hfields f, ok_bind]
  refine ⟨?_, fun k => (hfields k).symm⟩
  simp [get_stat, key, nineFields, lookupStr, ok_bind]

/-- C8 witness: the spec fixture response at key `matchesPlayed`. -/
theorem get_stat_nine_fields_roundtrip_witness :
    get_stat sampleResponse "matchesPlayed"
      = Except.ok (Json.obj matchesPlayedStat)
    ∧ pyDictEq matchesPlayedStat matchesPlayedStat :=
  get_stat_nine_fields_roundtrip sampleResponse "matchesPlayed"
    [("matchesPlayed", Json.obj matchesPlayedStat)] matchesPlayedStat
    (Json.num 1) (Json.num (199 / 2)) (Json.str "Matches Played")
    (Json.str "general") (Json.str "general") (Json.obj [])
    (Json.num 120) (Json.str "120") (Json.str "Number")
    rfl rfl (fun _ => rfl)

/-- C9: a client constructed with key `k` caches exactly the three headers
`TRN-API-Key: k`, `Accept: application/json`, `Accept-Encoding: gzip`; the
one request `get_player_stats` issues carries exactly those headers (and
`search_player` issues none); rebinding the `API_KEY` attribute after
construction leaves the cached headers unchanged. -/
theorem headers_fixed_and_cached (k newKey platform user_identifier : String)
    (respond : Request → Response) (query : List (String × String)) :
    (Client.init k).headers
      = [("TRN-API-Key", k), ("Accept", "application/json"),
         ("Accept-Encoding", "gzip")]
  ∧ ((get_player_stats (Client.init k) respond platform user_identifier).1).map
        Request.headers
      = [[("TRN-API-Key", k), ("Accept", "application/json"),
          ("Accept-Encoding", "gzip")]]
  ∧ (search_player (Client.init k) respond platform query).1 = []
  ∧ ((Client.init k).set_API_KEY newKey).headers = (Client.init k).headers :=
  ⟨rfl, rfl, rfl, rfl⟩

/-- C10: the `platform` argument of `search_player` has no influence on its
behaviour — for any two platform strings the issued requests and the outcome
are identical. -/
theorem search_player_ignores_platform (self : Client)
    (respond : Request → Response) (p1 p2 : String)
    (query : List (String × String)) :
    search_player self respond p1 query = search_player self respond p2 query :=
  rfl

end Splitgate
